import Mathlib

/-!
Contact form of the portfolio site (`src/script.js`)

A shallow embedding of `initializeFormValidation`: the three field validators,
the inline error slots, the whole-form message, the submit handler and the
simulated submission with its two `setTimeout` callbacks.

JavaScript strings are sequences of UTF-16 code units: `length`, `trim` and a
regular expression without the `u` flag all work on code units, so a field
value is a list of code units here.  The texts the script writes (error
messages, labels, class names) are never inspected by it and stay `String`s.
-/

namespace Portfolio

/-! ## Strings -/

/-- A JavaScript string value: its UTF-16 code units. -/
abbrev JSString := List Nat

/-- UTF-16 code units of one Unicode scalar value. -/
def utf16Char (c : Char) : List Nat :=
  if c.toNat < 65536 then [c.toNat]
  else [55296 + (c.toNat - 65536) / 1024, 56320 + (c.toNat - 65536) % 1024]

/-- UTF-16 code units of a text, as the browser stores a typed value. -/
def utf16 (s : String) : JSString :=
  s.data.flatMap utf16Char

/-- ECMAScript `WhiteSpace` and `LineTerminator` code units: what `trim`
strips and what `\s` matches. -/
def isWhitespace (c : Nat) : Bool :=
  c == 9 || c == 10 || c == 11 || c == 12 || c == 13 || c == 32 || c == 160 ||
  c == 5760 || (8192 ≤ c && c ≤ 8202) || c == 8232 || c == 8233 || c == 8239 ||
  c == 8287 || c == 12288 || c == 65279

/-- `String.prototype.trim`: leading and trailing white space removed. -/
def trim (s : JSString) : JSString :=
  ((s.dropWhile isWhitespace).reverse.dropWhile isWhitespace).reverse

/-! ## Regular expressions

Both patterns of the script are anchored (`^…$`, no flags) sequences of
items, each item a character class taken once or with `+`. -/

/-- One item of a pattern: a character class, once or repeated (`+`). -/
inductive Item where
  | one (cls : Nat → Bool)
  | plus (cls : Nat → Bool)

/-- Backtracking match of a whole input against an anchored item sequence:
`/^items$/.test(s)`. -/
def matchItems : List Item → JSString → Bool
  | [], [] => true
  | [], _ :: _ => false
  | _ :: _, [] => false
  | Item.one cls :: rest, c :: s => cls c && matchItems rest s
  | Item.plus cls :: rest, c :: s =>
      cls c && (matchItems (Item.plus cls :: rest) s || matchItems rest s)

/-- The class `[a-zA-Z\s'-]`. -/
def nameClass (c : Nat) : Bool :=
  (97 ≤ c && c ≤ 122) || (65 ≤ c && c ≤ 90) || isWhitespace c || c == 39 || c == 45

/-- The class `[^\s@]`. -/
def notSpaceAt (c : Nat) : Bool :=
  !(isWhitespace c || c == 64)

/-- The pattern `/^[a-zA-Z\s'-]+$/` of `validateName`. -/
def nameRegex : List Item :=
  [Item.plus nameClass]

/-- The pattern `/^[^\s@]+@[^\s@]+\.[^\s@]+$/` of `validateEmail`. -/
def emailRegex : List Item :=
  [Item.plus notSpaceAt, Item.one (fun c => c == 64), Item.plus notSpaceAt,
   Item.one (fun c => c == 46), Item.plus notSpaceAt]

/-! ## The document -/

/-- An inline error element (`#name-error`, `#email-error`, `#message-error`):
its `textContent` and its `style.display`. -/
structure ErrorSlot where
  textContent : String
  display : String
  deriving DecidableEq, Repr

/-- The whole-form message element `#form-message`. -/
structure FormMessage where
  textContent : String
  className : String
  display : String
  deriving DecidableEq, Repr

/-- The submit control `button[type="submit"]` of the form. -/
structure SubmitButton where
  disabled : Bool
  innerHTML : String
  deriving DecidableEq, Repr

/-- The two closures the script hands to `setTimeout`: the body of the
simulated submission (it captured `originalText`) and the dismissal of the
success message. -/
inductive Callback where
  | submitDone (originalText : String)
  | hideMessage
  deriving DecidableEq, Repr

/-- A pending timer: the time it is due and what it runs. -/
structure Timer where
  due : Nat
  callback : Callback
  deriving DecidableEq, Repr

/-- Everything of the page the contact form reads or writes, with the clock
and the pending timers of the event loop. -/
structure Dom where
  nameField : JSString
  emailField : JSString
  messageField : JSString
  nameError : ErrorSlot
  emailError : ErrorSlot
  messageError : ErrorSlot
  formMessage : FormMessage
  submitButton : SubmitButton
  now : Nat
  timers : List Timer
  deriving DecidableEq, Repr

/-- Modelled from the spec: the markup that gives the three controls their
default values is not part of the sources; the spec says a reset leaves the
three inputs cleared, so the default value of each control is the empty
text. -/
def defaultValue : JSString := []

/-- `showError(errorElement, message)`. -/
def showError (errorElement : ErrorSlot) (message : String) : ErrorSlot :=
  { errorElement with textContent := message, display := "block" }

/-- `clearError(errorElement)`. -/
def clearError (errorElement : ErrorSlot) : ErrorSlot :=
  { errorElement with textContent := "", display := "none" }

/-- `clearErrorMessages()`. -/
def clearErrorMessages (d : Dom) : Dom :=
  { d with
    nameError := clearError d.nameError
    emailError := clearError d.emailError
    messageError := clearError d.messageError }

/-- `showFormMessage(message, type)`; scrolling the message into view has no
effect on the modelled state. -/
def showFormMessage (d : Dom) (message type : String) : Dom :=
  { d with formMessage :=
      { d.formMessage with
        textContent := message
        className := "form-message " ++ type
        display := "block" } }

/-- `hideFormMessage()`. -/
def hideFormMessage (d : Dom) : Dom :=
  { d with formMessage :=
      { d.formMessage with display := "none", className := "form-message" } }

/-- `validateName()`: the new document and the returned boolean. -/
def validateName (d : Dom) : Dom × Bool :=
  let name := trim d.nameField
  if name = [] then
    ({ d with nameError := showError d.nameError "Name is required." }, false)
  else if name.length < 2 then
    ({ d with nameError :=
        showError d.nameError "Name must be at least 2 characters long." }, false)
  else if !matchItems nameRegex name then
    ({ d with nameError :=
        (showError d.nameError
          "Name can only contain letters, spaces, hyphens, and apostrophes.") }, false)
  else
    ({ d with nameError := clearError d.nameError }, true)

/-- `validateEmail()`: the new document and the returned boolean. -/
def validateEmail (d : Dom) : Dom × Bool :=
  let email := trim d.emailField
  if email = [] then
    ({ d with emailError := showError d.emailError "Email is required." }, false)
  else if !matchItems emailRegex email then
    ({ d with emailError :=
        showError d.emailError "Please enter a valid email address." }, false)
  else
    ({ d with emailError := clearError d.emailError }, true)

/-- `validateMessage()`: the new document and the returned boolean. -/
def validateMessage (d : Dom) : Dom × Bool :=
  let message := trim d.messageField
  if message = [] then
    ({ d with messageError := showError d.messageError "Message is required." }, false)
  else if message.length < 10 then
    ({ d with messageError :=
        showError d.messageError "Message must be at least 10 characters long." }, false)
  else if message.length > 1000 then
    ({ d with messageError :=
        showError d.messageError "Message must be less than 1000 characters." }, false)
  else
    ({ d with messageError := clearError d.messageError }, true)

/-- `setTimeout(callback, delay)`: the callback becomes due `delay` time units
from now; there is no handle to cancel it with. -/
def setTimeout (d : Dom) (callback : Callback) (delay : Nat) : Dom :=
  { d with timers := d.timers ++ [{ due := d.now + delay, callback := callback }] }

/-- `contactForm.reset()`: every control back to its default value. -/
def reset (d : Dom) : Dom :=
  { d with
    nameField := defaultValue
    emailField := defaultValue
    messageField := defaultValue }

/-- `submitForm()`: up to and including the call of `setTimeout`. -/
def submitForm (d : Dom) : Dom :=
  let originalText := d.submitButton.innerHTML
  let d := { d with submitButton := { d.submitButton with disabled := true } }
  let d := { d with submitButton := { d.submitButton with innerHTML := "Sending..." } }
  setTimeout d (Callback.submitDone originalText) 1500

/-- The body of a timer callback. -/
def runCallback (d : Dom) : Callback → Dom
  | Callback.submitDone originalText =>
      let d := reset d
      let d := showFormMessage d
        "Thank you for your message! I'll get back to you as soon as possible."
        "success"
      let d := { d with submitButton := { d.submitButton with disabled := false } }
      let d := { d with submitButton := { d.submitButton with innerHTML := originalText } }
      setTimeout d Callback.hideMessage 5000
  | Callback.hideMessage => hideFormMessage d

/-- The three validator calls of the submit handler and the condition it
branches on (`isNameValid && isEmailValid && isMessageValid`); the spec calls
this `validateAll`. -/
def validateAll (d : Dom) : Dom × Bool :=
  let (d, isNameValid) := validateName d
  let (d, isEmailValid) := validateEmail d
  let (d, isMessageValid) := validateMessage d
  (d, isNameValid && isEmailValid && isMessageValid)

/-- The `submit` listener of the contact form. -/
def onSubmit (d : Dom) : Dom :=
  let d := clearErrorMessages d
  let d := hideFormMessage d
  let (d, allValid) := validateAll d
  if allValid then submitForm d
  else showFormMessage d "Please correct the errors below." "error"

/-! ## The event loop -/

/-- The pending timer that fires next, with the timers that stay pending: the
one due earliest, and of several due together the one scheduled first. -/
def pickNext : List Timer → Option (Timer × List Timer)
  | [] => none
  | t :: rest =>
      match pickNext rest with
      | none => some (t, [])
      | some (u, others) =>
          if t.due ≤ u.due then some (t, rest) else some (u, t :: others)

/-- The next pending timer fires: the clock reaches its due time and its
callback runs.  Nothing happens when no timer is pending. -/
def fire (d : Dom) : Dom :=
  match pickNext d.timers with
  | none => d
  | some (t, others) =>
      runCallback { d with now := max d.now t.due, timers := others } t.callback

/-- Time passes without any event, at most until the next timer is due. -/
def advance (d : Dom) (dt : Nat) : Dom :=
  match pickNext d.timers with
  | none => { d with now := d.now + dt }
  | some (t, _) => { d with now := min (d.now + dt) (max d.now t.due) }

/-- What can happen to the form: the user edits a field, a field loses focus,
the form is submitted, time passes, a timer fires. -/
inductive Event where
  | inputName (value : JSString)
  | inputEmail (value : JSString)
  | inputMessage (value : JSString)
  | blurName
  | blurEmail
  | blurMessage
  | submit
  | advance (dt : Nat)
  | fire
  deriving DecidableEq, Repr

/-- One turn of the event loop. -/
def step (d : Dom) : Event → Dom
  | Event.inputName value => { d with nameField := value }
  | Event.inputEmail value => { d with emailField := value }
  | Event.inputMessage value => { d with messageField := value }
  | Event.blurName => (validateName d).1
  | Event.blurEmail => (validateEmail d).1
  | Event.blurMessage => (validateMessage d).1
  | Event.submit => onSubmit d
  | Event.advance dt => advance d dt
  | Event.fire => fire d

/-- A sequence of events, handled in order. -/
def run (d : Dom) (events : List Event) : Dom :=
  events.foldl step d

/-- A submission-delay timer. -/
def Timer.isSubmission (t : Timer) : Bool :=
  match t.callback with
  | Callback.submitDone _ => true
  | Callback.hideMessage => false

/-- A success-message auto-dismiss timer. -/
def Timer.isDismiss (t : Timer) : Bool :=
  match t.callback with
  | Callback.submitDone _ => false
  | Callback.hideMessage => true

/-- An example document: the form filled with the spec's valid triple, nothing
shown, the control enabled, no timer pending.  The label "Send Message" is an
example; the script never fixes the label of the control at rest. -/
def filledForm : Dom :=
  { nameField := utf16 "Jane Doe"
    emailField := utf16 "jane@example.com"
    messageField := utf16 "Hello, this is a test message."
    nameError := { textContent := "", display := "none" }
    emailError := { textContent := "", display := "none" }
    messageError := { textContent := "", display := "none" }
    formMessage := { textContent := "", className := "form-message", display := "none" }
    submitButton := { disabled := false, innerHTML := "Send Message" }
    now := 0
    timers := [] }

/-! ## Properties in the words of the specification -/

/-- The pattern of `validateEmail` in the spec's words: one or more
characters that are neither white space nor `@`, then `@`, then one or more
such characters, then `.`, then one or more such characters, and nothing
else. -/
def EmailPattern (t : JSString) : Prop :=
  ∃ u v w : JSString, t = u ++ 64 :: (v ++ 46 :: w) ∧ u ≠ [] ∧ v ≠ [] ∧ w ≠ [] ∧
    (∀ c ∈ u, isWhitespace c = false ∧ c ≠ 64) ∧
    (∀ c ∈ v, isWhitespace c = false ∧ c ≠ 64) ∧
    (∀ c ∈ w, isWhitespace c = false ∧ c ≠ 64)

/-- The part of an address before its first `@`. -/
def beforeAt (t : JSString) : JSString :=
  t.takeWhile (fun c => c != 64)

/-- The part of an address after its first `@`. -/
def afterAt (t : JSString) : JSString :=
  (t.dropWhile (fun c => c != 64)).drop 1

/-- The shape of an accepted address in the spec's words: no white space,
exactly one `@` with at least one character before it, and after the `@` a
`.` that is neither the first nor the last character of that part. -/
def EmailShape (t : JSString) : Prop :=
  (∀ c ∈ t, isWhitespace c = false) ∧ t.count 64 = 1 ∧ beforeAt t ≠ [] ∧
    ∃ i, 0 < i ∧ i + 1 < (afterAt t).length ∧ (afterAt t)[i]? = some 46

instance (t : JSString) : Decidable (EmailShape t) :=
  decidable_of_iff
    ((∀ c ∈ t, isWhitespace c = false) ∧ t.count 64 = 1 ∧ beforeAt t ≠ [] ∧
      ∃ i, i < (afterAt t).length ∧
        (0 < i ∧ i + 1 < (afterAt t).length ∧ (afterAt t)[i]? = some 46))
    ⟨fun ⟨h1, h2, h3, i, _, h4⟩ => ⟨h1, h2, h3, i, h4⟩,
     fun ⟨h1, h2, h3, i, h4⟩ => ⟨h1, h2, h3, i, by omega, h4⟩⟩

/-- A submission-delay timer and an auto-dismiss timer are pending at the
same time. -/
def bothPending (d : Dom) : Bool :=
  d.timers.any Timer.isSubmission && d.timers.any Timer.isDismiss

/-- The number of pending auto-dismiss timers. -/
def dismissPending (d : Dom) : Nat :=
  d.timers.countP Timer.isDismiss

/-- Every submit attempt of the sequence is made while no timer is pending,
or with a field that does not validate. -/
def submitsWhenIdle : Dom → List Event → Bool
  | _, [] => true
  | d, e :: es =>
      (e != Event.submit || d.timers.isEmpty || !(validateAll d).2) &&
        submitsWhenIdle (step d e) es

/-- One turn of the event loop of the page.  A submit attempt reaches the
`submit` listener only while the submit control is enabled: `submitForm`
disables the control "to prevent multiple submissions" (lines 245 and 249), a
disabled control does not submit its form, the `keydown` listener of lines
385 to 388 cancels Enter in the inputs, and nothing in the script dispatches
a `submit` event itself.  An attempt made while the control is disabled does
nothing. -/
def pageStep (d : Dom) : Event → Dom
  | Event.submit => if d.submitButton.disabled = true then d else onSubmit d
  | e => step d e

/-- A sequence of events on the page, handled in order. -/
def pageRun (d : Dom) (events : List Event) : Dom :=
  events.foldl pageStep d

/-- What holds of the control and the pending timers throughout a page run
that started with the label `original`: every pending submission timer
captured `original`, and either none is pending and the control is enabled
with that label, or exactly one is pending and the control is disabled. -/
def LabelKept (original : String) (d : Dom) : Prop :=
  (∀ t ∈ d.timers, t.isSubmission = true → t.callback = Callback.submitDone original) ∧
    ((d.timers.countP Timer.isSubmission = 0 ∧
        d.submitButton = { disabled := false, innerHTML := original }) ∨
      (d.timers.countP Timer.isSubmission = 1 ∧ d.submitButton.disabled = true))

/-! ## Trimming -/

theorem trim_decomp (s : JSString) :
    ∃ l r, s = l ++ trim s ++ r ∧ (∀ c ∈ l, isWhitespace c = true) ∧
      (∀ c ∈ r, isWhitespace c = true) := by
  refine ⟨s.takeWhile isWhitespace,
    ((s.dropWhile isWhitespace).reverse.takeWhile isWhitespace).reverse, ?_, ?_, ?_⟩
  · have h1 : s = s.takeWhile isWhitespace ++ s.dropWhile isWhitespace :=
      (List.takeWhile_append_dropWhile isWhitespace s).symm
    have h2 : s.dropWhile isWhitespace =
        ((s.dropWhile isWhitespace).reverse.dropWhile isWhitespace).reverse ++
        ((s.dropWhile isWhitespace).reverse.takeWhile isWhitespace).reverse := by
      rw [← List.reverse_append, List.takeWhile_append_dropWhile, List.reverse_reverse]
    unfold trim
    rw [List.append_assoc, ← h2]
    exact h1
  · intro c hc
    exact List.mem_takeWhile_imp hc
  · intro c hc
    exact List.mem_takeWhile_imp (List.mem_reverse.mp hc)

theorem mem_trim_of_mem {s : JSString} {c : Nat} (hc : c ∈ s)
    (hw : isWhitespace c = false) : c ∈ trim s := by
  obtain ⟨l, r, hs, hl, hr⟩ := trim_decomp s
  rw [hs] at hc
  simp only [List.mem_append] at hc
  rcases hc with (h | h) | h
  · rw [hl c h] at hw; cases hw
  · exact h
  · rw [hr c h] at hw; cases hw

theorem mem_of_mem_trim {s : JSString} {c : Nat} (hc : c ∈ trim s) : c ∈ s := by
  obtain ⟨l, r, hs, -, -⟩ := trim_decomp s
  rw [hs]
  simp [hc]

/-! ## Matching -/

theorem matchItems_nil (s : JSString) : matchItems [] s = true ↔ s = [] := by
  cases s <;> simp [matchItems]

theorem matchItems_one (cls : Nat → Bool) (rest : List Item) (s : JSString) :
    matchItems (Item.one cls :: rest) s = true ↔
      ∃ c v, s = c :: v ∧ cls c = true ∧ matchItems rest v = true := by
  cases s with
  | nil => simp [matchItems]
  | cons c v =>
    simp only [matchItems, Bool.and_eq_true, List.cons.injEq]
    constructor
    · rintro ⟨h1, h2⟩
      exact ⟨c, v, ⟨rfl, rfl⟩, h1, h2⟩
    · rintro ⟨c1, v1, ⟨rfl, rfl⟩, h1, h2⟩
      exact ⟨h1, h2⟩

theorem matchItems_plus (cls : Nat → Bool) (rest : List Item) (s : JSString) :
    matchItems (Item.plus cls :: rest) s = true ↔
      ∃ u v, s = u ++ v ∧ u ≠ [] ∧ (∀ c ∈ u, cls c = true) ∧ matchItems rest v = true := by
  induction s with
  | nil =>
    simp only [matchItems, Bool.false_eq_true, false_iff]
    rintro ⟨u, v, h, hu, -⟩
    cases u with
    | nil => exact hu rfl
    | cons a u => cases h
  | cons c s ih =>
    simp only [matchItems, Bool.and_eq_true, Bool.or_eq_true, ih]
    constructor
    · rintro ⟨hc, ⟨u, v, hs, -, hu, hv⟩ | hv⟩
      · refine ⟨c :: u, v, by simp [hs], by simp, ?_, hv⟩
        intro x hx
        rcases List.mem_cons.mp hx with rfl | hx
        · exact hc
        · exact hu x hx
      · exact ⟨[c], s, rfl, by simp, by simpa using hc, hv⟩
    · rintro ⟨u, v, hs, hu, hcls, hv⟩
      cases u with
      | nil => exact absurd rfl hu
      | cons a u =>
        simp only [List.cons_append, List.cons.injEq] at hs
        obtain ⟨rfl, rfl⟩ := hs
        refine ⟨hcls _ (List.mem_cons_self _ _), ?_⟩
        cases u with
        | nil => right; simpa using hv
        | cons b u =>
          left
          exact ⟨b :: u, v, rfl, by simp, fun x hx => hcls x (List.mem_cons_of_mem _ hx), hv⟩

theorem matchItems_nameRegex (s : JSString) :
    matchItems nameRegex s = true ↔ s ≠ [] ∧ ∀ c ∈ s, nameClass c = true := by
  unfold nameRegex
  rw [matchItems_plus]
  constructor
  · rintro ⟨u, v, hs, hu, hcls, hv⟩
    rw [matchItems_nil] at hv
    subst hv
    simp only [List.append_nil] at hs
    subst hs
    exact ⟨hu, hcls⟩
  · rintro ⟨hs, hcls⟩
    exact ⟨s, [], by simp, hs, hcls, by simp [matchItems]⟩

theorem notSpaceAt_iff (c : Nat) :
    notSpaceAt c = true ↔ isWhitespace c = false ∧ c ≠ 64 := by
  unfold notSpaceAt
  cases h : isWhitespace c <;> simp

theorem matchItems_emailRegex (t : JSString) :
    matchItems emailRegex t = true ↔ EmailPattern t := by
  unfold emailRegex EmailPattern
  simp only [matchItems_plus, matchItems_one, matchItems_nil, notSpaceAt_iff]
  constructor
  · rintro ⟨u, r1, rfl, hu, hcu, c1, r2, rfl, hc1, v, r3, rfl, hv, hcv, c2, r4, rfl, hc2,
      w, e, rfl, hw, hcw, rfl⟩
    simp only [beq_iff_eq] at hc1 hc2
    subst hc1 hc2
    exact ⟨u, v, w, by simp, hu, hv, hw, hcu, hcv, hcw⟩
  · rintro ⟨u, v, w, rfl, hu, hv, hw, hcu, hcv, hcw⟩
    exact ⟨u, _, rfl, hu, hcu, 64, _, rfl, by simp, v, _, rfl, hv, hcv, 46, _, rfl, by simp,
      w, [], by simp, hw, hcw, rfl⟩

theorem span_at_of_not_mem (u r : JSString) (hu : ∀ c ∈ u, c ≠ 64) :
    beforeAt (u ++ 64 :: r) = u ∧ afterAt (u ++ 64 :: r) = r := by
  unfold beforeAt afterAt
  induction u with
  | nil => simp
  | cons a u ih =>
    have ha : a ≠ 64 := hu a (List.mem_cons_self _ _)
    have ih2 := ih (fun c hc => hu c (List.mem_cons_of_mem _ hc))
    simp [ha, ih2.1, ih2.2]

theorem span_at_of_mem (t : JSString) (h : 64 ∈ t) :
    t = beforeAt t ++ 64 :: afterAt t := by
  unfold beforeAt afterAt
  induction t with
  | nil => cases h
  | cons a t ih =>
    by_cases ha : a = 64
    · subst ha; simp
    · have ht : 64 ∈ t := by
        rcases List.mem_cons.mp h with h | h
        · exact absurd h.symm ha
        · exact h
      have ih2 := ih ht
      simp only [List.takeWhile_cons, List.dropWhile_cons, bne_iff_ne, ne_eq, ha,
        not_false_eq_true, decide_True, ite_true, List.cons_append]
      simpa [ha] using ih2

theorem beforeAt_ne (t : JSString) : ∀ c ∈ beforeAt t, c ≠ 64 := by
  intro c hc
  have := List.mem_takeWhile_imp hc
  simpa using this

theorem emailPattern_iff_shape (t : JSString) : EmailPattern t ↔ EmailShape t := by
  constructor
  · rintro ⟨u, v, w, rfl, hu, hv, hw, hcu, hcv, hcw⟩
    obtain ⟨hb, ha⟩ := span_at_of_not_mem u (v ++ 46 :: w) (fun c hc => (hcu c hc).2)
    refine ⟨?_, ?_, ?_, ?_⟩
    · intro c hc
      simp only [List.mem_append, List.mem_cons] at hc
      rcases hc with h | rfl | h | rfl | h
      · exact (hcu c h).1
      · decide
      · exact (hcv c h).1
      · decide
      · exact (hcw c h).1
    · have h1 : u.count 64 = 0 := List.count_eq_zero.mpr (fun h => (hcu 64 h).2 rfl)
      have h2 : v.count 64 = 0 := List.count_eq_zero.mpr (fun h => (hcv 64 h).2 rfl)
      have h3 : w.count 64 = 0 := List.count_eq_zero.mpr (fun h => (hcw 64 h).2 rfl)
      simp [List.count_append, List.count_cons, h1, h2, h3]
    · rw [hb]; exact hu
    · rw [ha]
      refine ⟨v.length, List.length_pos.mpr hv, ?_, ?_⟩
      · have : 0 < w.length := List.length_pos.mpr hw
        simp only [List.length_append, List.length_cons]
        omega
      · rw [List.getElem?_append_right (Nat.le_refl _)]
        simp
  · rintro ⟨hws, hcount, hb, i, hi0, hi1, hi⟩
    have hmem : 64 ∈ t := List.count_pos_iff.mp (by omega)
    have hsplit := span_at_of_mem t hmem
    have hcnt : (beforeAt t).count 64 + (1 + (afterAt t).count 64) = 1 := by
      have := hcount
      rw [hsplit, List.count_append, List.count_cons] at this
      simpa [Nat.add_comm] using this
    have hafter : ∀ c ∈ afterAt t, c ≠ 64 := by
      intro c hc hc64
      subst hc64
      have : 0 < (afterAt t).count 64 := List.count_pos_iff.mpr hc
      omega
    have hlt : i < (afterAt t).length := by omega
    have hget : (afterAt t)[i] = 46 := by
      have := List.getElem?_eq_getElem hlt
      rw [this] at hi
      exact Option.some.inj hi
    have hp : afterAt t = (afterAt t).take i ++ 46 :: (afterAt t).drop (i + 1) := by
      rw [← hget, ← List.drop_eq_getElem_cons hlt, List.take_append_drop]
    have hsub : ∀ c ∈ t, isWhitespace c = false ∧ (c ∈ beforeAt t ∨ c ∈ afterAt t → c ≠ 64) := by
      intro c hc
      refine ⟨hws c hc, ?_⟩
      rintro (h | h)
      · exact beforeAt_ne t c h
      · exact hafter c h
    have hin1 : ∀ c ∈ beforeAt t, c ∈ t := fun c hc => by
      rw [hsplit]; exact List.mem_append_left _ hc
    have hin2 : ∀ c ∈ afterAt t, c ∈ t := fun c hc => by
      rw [hsplit]; exact List.mem_append_right _ (List.mem_cons_of_mem _ hc)
    refine ⟨beforeAt t, (afterAt t).take i, (afterAt t).drop (i + 1), ?_, hb, ?_, ?_, ?_, ?_, ?_⟩
    · rw [← hp]; exact hsplit
    · intro h
      have := congrArg List.length h
      simp only [List.length_take, List.length_nil] at this
      omega
    · intro h
      have := congrArg List.length h
      simp only [List.length_drop, List.length_nil] at this
      omega
    · intro c hc
      exact ⟨hws c (hin1 c hc), beforeAt_ne t c hc⟩
    · intro c hc
      have hc2 := List.mem_of_mem_take hc
      exact ⟨hws c (hin2 c hc2), hafter c hc2⟩
    · intro c hc
      have hc2 := List.mem_of_mem_drop hc
      exact ⟨hws c (hin2 c hc2), hafter c hc2⟩

/-! ## The validators -/

/-- C1: with `n` the length of the trimmed message, `validateMessage` reports
Empty ("Message is required.") when `n = 0`, TooShort when `1 ≤ n ≤ 9`,
success (slot cleared, `true` returned) when `10 ≤ n ≤ 1000` and TooLong when
`n ≥ 1001`; the length that counts is the trimmed one. -/
theorem validateMessage_by_trimmed_length (d : Dom) :
    ((trim d.messageField).length = 0 →
      validateMessage d =
        ({ d with messageError :=
            { textContent := "Message is required.", display := "block" } }, false)) ∧
    (1 ≤ (trim d.messageField).length ∧ (trim d.messageField).length ≤ 9 →
      validateMessage d =
        ({ d with messageError :=
            { textContent := "Message must be at least 10 characters long.",
              display := "block" } }, false)) ∧
    (10 ≤ (trim d.messageField).length ∧ (trim d.messageField).length ≤ 1000 →
      validateMessage d =
        ({ d with messageError := { textContent := "", display := "none" } }, true)) ∧
    (1001 ≤ (trim d.messageField).length →
      validateMessage d =
        ({ d with messageError :=
            { textContent := "Message must be less than 1000 characters.",
              display := "block" } }, false)) := by
  refine ⟨?_, ?_, ?_, ?_⟩
  · intro h
    have h0 : trim d.messageField = [] := List.length_eq_zero.mp h
    simp [validateMessage, showError, h0]
  · rintro ⟨h1, h2⟩
    have h0 : trim d.messageField ≠ [] := by
      intro h; rw [h] at h1; simp at h1
    have h3 : (trim d.messageField).length < 10 := by omega
    simp [validateMessage, showError, h0, h3]
  · rintro ⟨h1, h2⟩
    have h0 : trim d.messageField ≠ [] := by
      intro h; rw [h] at h1; simp at h1
    have h3 : ¬ (trim d.messageField).length < 10 := by omega
    have h4 : ¬ 1000 < (trim d.messageField).length := by omega
    simp [validateMessage, clearError, h0, h3, h4]
  · intro h1
    have h0 : trim d.messageField ≠ [] := by
      intro h; rw [h] at h1; simp at h1
    have h3 : ¬ (trim d.messageField).length < 10 := by omega
    have h4 : 1000 < (trim d.messageField).length := by omega
    simp [validateMessage, showError, h0, h3, h4]

set_option maxRecDepth 100000 in
/-- Witness for C1: a message of 13 code units whose trimmed length is 9 is
TooShort, trimmed lengths of exactly 10 and exactly 1000 succeed (the second
inside a raw value of 1002 code units), 1001 is TooLong and a blank message
is Empty. -/
theorem validateMessage_by_trimmed_length_witness :
    (validateMessage { filledForm with messageField := utf16 "  too short  " }).1.messageError
        = { textContent := "Message must be at least 10 characters long.", display := "block" } ∧
    (validateMessage { filledForm with messageField := utf16 " 0123456789 " }).2 = true ∧
    (validateMessage
        { filledForm with messageField := 32 :: (List.replicate 1000 97 ++ [10]) }).2 = true ∧
    (validateMessage { filledForm with messageField := List.replicate 1001 97 }).1.messageError
        = { textContent := "Message must be less than 1000 characters.", display := "block" } ∧
    (validateMessage { filledForm with messageField := utf16 "   " }).1.messageError
        = { textContent := "Message is required.", display := "block" } := by
  refine ⟨?_, ?_, ?_, ?_, ?_⟩
  · rw [(validateMessage_by_trimmed_length
      { filledForm with messageField := utf16 "  too short  " }).2.1 (by decide)]
  · rw [(validateMessage_by_trimmed_length
      { filledForm with messageField := utf16 " 0123456789 " }).2.2.1 (by decide)]
  · rw [(validateMessage_by_trimmed_length
      { filledForm with messageField := 32 :: (List.replicate 1000 97 ++ [10]) }).2.2.1
        (by decide)]
  · rw [(validateMessage_by_trimmed_length
      { filledForm with messageField := List.replicate 1001 97 }).2.2.2 (by decide)]
  · rw [(validateMessage_by_trimmed_length
      { filledForm with messageField := utf16 "   " }).1 (by decide)]

/-- A trimmed name of two or more code units with a character outside the
class is rejected with the characters message. -/
theorem validateName_of_bad_char (d : Dom) (h2 : 2 ≤ (trim d.nameField).length)
    (hbad : ∃ c ∈ trim d.nameField, nameClass c = false) :
    validateName d =
      ({ d with nameError :=
          { textContent := "Name can only contain letters, spaces, hyphens, and apostrophes.",
            display := "block" } }, false) := by
  obtain ⟨c, hc, hcls⟩ := hbad
  have h0 : trim d.nameField ≠ [] := by
    intro h; rw [h] at h2; simp at h2
  have h3 : ¬ (trim d.nameField).length < 2 := by omega
  have h4 : matchItems nameRegex (trim d.nameField) = false := by
    rw [Bool.eq_false_iff]
    intro h
    have := ((matchItems_nameRegex _).mp h).2 c hc
    rw [hcls] at this
    cases this
  simp [validateName, showError, h0, h3, h4]

/-- C2: with `t` the trimmed name, `validateName` applies its checks in order
and reports the first that fails: Empty when `t` is empty, TooShort when `t`
has length 1, InvalidCharacters when `t` (of length at least 2) contains a
character outside `[a-zA-Z\s'-]`; every trimmed name of length at least 2 made
only of those characters succeeds. -/
theorem validateName_checks_in_order (d : Dom) :
    (trim d.nameField = [] →
      validateName d =
        ({ d with nameError :=
            { textContent := "Name is required.", display := "block" } }, false)) ∧
    ((trim d.nameField).length = 1 →
      validateName d =
        ({ d with nameError :=
            { textContent := "Name must be at least 2 characters long.",
              display := "block" } }, false)) ∧
    (2 ≤ (trim d.nameField).length → (∃ c ∈ trim d.nameField, nameClass c = false) →
      validateName d =
        ({ d with nameError :=
            { textContent := "Name can only contain letters, spaces, hyphens, and apostrophes.",
              display := "block" } }, false)) ∧
    (2 ≤ (trim d.nameField).length → (∀ c ∈ trim d.nameField, nameClass c = true) →
      validateName d =
        ({ d with nameError := { textContent := "", display := "none" } }, true)) := by
  refine ⟨?_, ?_, ?_, ?_⟩
  · intro h0
    simp [validateName, showError, h0]
  · intro h1
    have h0 : trim d.nameField ≠ [] := by
      intro h; rw [h] at h1; simp at h1
    simp [validateName, showError, h0, h1]
  · intro h2 hbad
    exact validateName_of_bad_char d h2 hbad
  · intro h2 hall
    have h0 : trim d.nameField ≠ [] := by
      intro h; rw [h] at h2; simp at h2
    have h3 : ¬ (trim d.nameField).length < 2 := by omega
    have h4 : matchItems nameRegex (trim d.nameField) = true :=
      (matchItems_nameRegex _).mpr ⟨h0, hall⟩
    simp [validateName, clearError, h0, h3, h4]

/-- Witness for C2: a blank name is Empty, "J" is TooShort, "J4ne" has
InvalidCharacters, and "Mary-Jane O'Neil" padded with blanks succeeds. -/
theorem validateName_checks_in_order_witness :
    (validateName { filledForm with nameField := utf16 "  " }).1.nameError
        = { textContent := "Name is required.", display := "block" } ∧
    (validateName { filledForm with nameField := utf16 " J " }).1.nameError
        = { textContent := "Name must be at least 2 characters long.", display := "block" } ∧
    (validateName { filledForm with nameField := utf16 "J4ne" }).1.nameError
        = { textContent := "Name can only contain letters, spaces, hyphens, and apostrophes.",
            display := "block" } ∧
    (validateName { filledForm with nameField := utf16 " Mary-Jane O'Neil " }).2 = true := by
  refine ⟨?_, ?_, ?_, ?_⟩
  · rw [(validateName_checks_in_order
      { filledForm with nameField := utf16 "  " }).1 (by decide)]
  · rw [(validateName_checks_in_order
      { filledForm with nameField := utf16 " J " }).2.1 (by decide)]
  · rw [(validateName_checks_in_order
      { filledForm with nameField := utf16 "J4ne" }).2.2.1 (by decide) ⟨52, by decide, by decide⟩]
  · rw [(validateName_checks_in_order
      { filledForm with nameField := utf16 " Mary-Jane O'Neil " }).2.2.2 (by decide) (by decide)]

/-- C3, as stated, fails: the name "7" contains a digit, and `validateName`
reports TooShort for it, not InvalidCharacters. -/
theorem validateName_digit_counterexample :
    (∃ c ∈ utf16 "7", nameClass c = false) ∧
    validateName { filledForm with nameField := utf16 "7" } =
      ({ filledForm with
          nameField := utf16 "7"
          nameError :=
            { textContent := "Name must be at least 2 characters long.",
              display := "block" } }, false) ∧
    (validateName { filledForm with nameField := utf16 "7" }).1.nameError.textContent ≠
      "Name can only contain letters, spaces, hyphens, and apostrophes." := by
  refine ⟨⟨55, by decide, by decide⟩, by decide, by decide⟩

/-- C3, amended: a name input that contains a character outside the allowed
set (letters, white space, hyphen, apostrophe) and whose trimmed value has at
least 2 code units is reported as InvalidCharacters. -/
theorem validateName_invalid_characters (d : Dom)
    (hbad : ∃ c ∈ d.nameField, nameClass c = false)
    (hlen : 2 ≤ (trim d.nameField).length) :
    validateName d =
      ({ d with nameError :=
          { textContent := "Name can only contain letters, spaces, hyphens, and apostrophes.",
            display := "block" } }, false) := by
  obtain ⟨c, hc, hcls⟩ := hbad
  have hw : isWhitespace c = false := by
    cases h : isWhitespace c
    · rfl
    · simp [nameClass, h] at hcls
  exact validateName_of_bad_char d hlen ⟨c, mem_trim_of_mem hc hw, hcls⟩

/-- Witness for C3 amended: " R2-D2 " contains digits and is two or more code
units long once trimmed. -/
theorem validateName_invalid_characters_witness :
    validateName { filledForm with nameField := utf16 " R2-D2 " } =
      ({ filledForm with
          nameField := utf16 " R2-D2 "
          nameError :=
            { textContent := "Name can only contain letters, spaces, hyphens, and apostrophes.",
              display := "block" } }, false) :=
  validateName_invalid_characters { filledForm with nameField := utf16 " R2-D2 " }
    ⟨50, by decide, by decide⟩ (by decide)

/-- A trimmed email that is not empty and does not match the pattern is
rejected as malformed. -/
theorem validateEmail_of_no_match (d : Dom) (h0 : trim d.emailField ≠ [])
    (hp : ¬ EmailPattern (trim d.emailField)) :
    validateEmail d =
      ({ d with emailError :=
          { textContent := "Please enter a valid email address.",
            display := "block" } }, false) := by
  have h : matchItems emailRegex (trim d.emailField) = false := by
    rw [Bool.eq_false_iff]
    intro h
    exact hp ((matchItems_emailRegex _).mp h)
  simp [validateEmail, showError, h0, h]

/-- C4: with `t` the trimmed email, `validateEmail` reports Empty when `t` is
empty; it succeeds exactly when `t` matches the anchored pattern, which is
exactly when `t` has no white space, exactly one `@` with a character before
it, and after the `@` a `.` that is neither first nor last; in every other
case it reports MalformedAddress. -/
theorem validateEmail_accepts_iff (d : Dom) :
    (trim d.emailField = [] →
      validateEmail d =
        ({ d with emailError :=
            { textContent := "Email is required.", display := "block" } }, false)) ∧
    ((validateEmail d).2 = true ↔ EmailPattern (trim d.emailField)) ∧
    (EmailPattern (trim d.emailField) ↔ EmailShape (trim d.emailField)) ∧
    (EmailShape (trim d.emailField) →
      validateEmail d =
        ({ d with emailError := { textContent := "", display := "none" } }, true)) ∧
    (trim d.emailField ≠ [] → ¬ EmailShape (trim d.emailField) →
      validateEmail d =
        ({ d with emailError :=
            { textContent := "Please enter a valid email address.",
              display := "block" } }, false)) := by
  have hne : EmailPattern (trim d.emailField) → trim d.emailField ≠ [] := by
    rintro ⟨u, v, w, h, -⟩ h0
    rw [h0] at h
    simp at h
  refine ⟨?_, ?_, emailPattern_iff_shape _, ?_, ?_⟩
  · intro h0
    simp [validateEmail, showError, h0]
  · rw [← matchItems_emailRegex]
    by_cases h0 : trim d.emailField = []
    · have hm : matchItems emailRegex [] = false := by decide
      simp [validateEmail, h0, hm]
    · cases h : matchItems emailRegex (trim d.emailField) <;> simp [validateEmail, h0, h]
  · intro hs
    have hp := (emailPattern_iff_shape _).mpr hs
    have h0 := hne hp
    have h := (matchItems_emailRegex _).mpr hp
    simp [validateEmail, clearError, h0, h]
  · intro h0 hs
    exact validateEmail_of_no_match d h0 (fun hp => hs ((emailPattern_iff_shape _).mp hp))

/-- Witness for C4: " a@b.c " has the shape (the `.` is the middle character
of "b.c") and succeeds; "a@b." is not empty, lacks the shape (its `.` is the
last character after the `@`) and is malformed; a blank value is Empty. -/
theorem validateEmail_accepts_iff_witness :
    validateEmail { filledForm with emailField := utf16 " a@b.c " } =
      ({ filledForm with
          emailField := utf16 " a@b.c "
          emailError := { textContent := "", display := "none" } }, true) ∧
    validateEmail { filledForm with emailField := utf16 "a@b." } =
      ({ filledForm with
          emailField := utf16 "a@b."
          emailError :=
            { textContent := "Please enter a valid email address.", display := "block" } },
        false) ∧
    validateEmail { filledForm with emailField := utf16 " " } =
      ({ filledForm with
          emailField := utf16 " "
          emailError := { textContent := "Email is required.", display := "block" } },
        false) := by
  refine ⟨?_, ?_, ?_⟩
  · exact (validateEmail_accepts_iff { filledForm with emailField := utf16 " a@b.c " }).2.2.2.1
      (by decide)
  · exact (validateEmail_accepts_iff { filledForm with emailField := utf16 "a@b." }).2.2.2.2
      (by decide) (by decide)
  · exact (validateEmail_accepts_iff { filledForm with emailField := utf16 " " }).1 (by decide)

/-- C5, as stated, fails: the empty input has no `@`, and `validateEmail`
reports Empty for it, not MalformedAddress. -/
theorem validateEmail_no_at_counterexample :
    64 ∉ utf16 "" ∧
    validateEmail { filledForm with emailField := utf16 "" } =
      ({ filledForm with
          emailField := utf16 ""
          emailError := { textContent := "Email is required.", display := "block" } },
        false) ∧
    (validateEmail { filledForm with emailField := utf16 "" }).1.emailError.textContent ≠
      "Please enter a valid email address." := by
  refine ⟨by decide, by decide, by decide⟩

/-- C5, amended: an email input whose trimmed value is not empty and that has
no `@`, or that has an `@` with no `.` after it, is reported as
MalformedAddress. -/
theorem validateEmail_malformed_without_at_or_dot (d : Dom)
    (hne : trim d.emailField ≠ [])
    (h : 64 ∉ d.emailField ∨ ∃ u v, d.emailField = u ++ 64 :: v ∧ 46 ∉ v) :
    validateEmail d =
      ({ d with emailError :=
          { textContent := "Please enter a valid email address.",
            display := "block" } }, false) := by
  refine validateEmail_of_no_match d hne ?_
  rintro ⟨a, b, c, ht, -, -, -, hca, hcb, hcc⟩
  obtain ⟨l, r, hs, hl, hr⟩ := trim_decomp d.emailField
  have h64 : isWhitespace 64 = false := by decide
  have hnl : 64 ∉ l := fun hm => by rw [hl 64 hm] at h64; cases h64
  have hnr : 64 ∉ r := fun hm => by rw [hr 64 hm] at h64; cases h64
  rcases h with h | ⟨u, v, hraw, hv⟩
  · apply h
    apply mem_of_mem_trim
    rw [ht]
    simp
  · have hraw2 : d.emailField = (l ++ a) ++ 64 :: (b ++ 46 :: c ++ r) := by
      rw [hs, ht]; simp
    have hx : 64 ∉ l ++ a := by
      intro hm
      rcases List.mem_append.mp hm with hm | hm
      · exact hnl hm
      · exact (hca 64 hm).2 rfl
    have hz : 64 ∉ b ++ 46 :: c ++ r := by
      intro hm
      simp only [List.mem_append, List.mem_cons] at hm
      rcases hm with (hm | hm | hm) | hm
      · exact (hcb 64 hm).2 rfl
      · cases hm
      · exact (hcc 64 hm).2 rfl
      · exact hnr hm
    have heq : (l ++ a) ++ 64 :: (b ++ 46 :: c ++ r) = u ++ 64 :: v := by
      rw [← hraw2, hraw]
    obtain ⟨-, -, hv2⟩ := (List.append_cons_inj_of_not_mem hx hz).mp heq
    apply hv
    rw [← hv2]
    simp

/-- Witness for C5 amended: "jane.doe" has no `@`, and in "jane.doe@example"
no `.` follows the `@`; both are malformed. -/
theorem validateEmail_malformed_without_at_or_dot_witness :
    (validateEmail { filledForm with emailField := utf16 "jane.doe" }).1.emailError =
      { textContent := "Please enter a valid email address.", display := "block" } ∧
    (validateEmail { filledForm with emailField := utf16 " jane.doe@example " }).1.emailError =
      { textContent := "Please enter a valid email address.", display := "block" } := by
  refine ⟨?_, ?_⟩
  · rw [validateEmail_malformed_without_at_or_dot
      { filledForm with emailField := utf16 "jane.doe" } (by decide) (Or.inl (by decide))]
  · rw [validateEmail_malformed_without_at_or_dot
      { filledForm with emailField := utf16 " jane.doe@example " } (by decide)
      (Or.inr ⟨utf16 " jane.doe", utf16 "example ", by decide, by decide⟩)]

/-! ## The submit handler -/

theorem className_error : "form-message " ++ "error" = "form-message error" := by decide

theorem className_success : "form-message " ++ "success" = "form-message success" := by decide

/-- A validator writes only its own slot, and what it writes and returns is
decided by its own field alone. -/
theorem validateName_frame (d : Dom) :
    validateName d = ({ d with nameError := (validateName d).1.nameError }, (validateName d).2) := by
  unfold validateName
  simp only []
  split_ifs <;> rfl

theorem validateEmail_frame (d : Dom) :
    validateEmail d =
      ({ d with emailError := (validateEmail d).1.emailError }, (validateEmail d).2) := by
  unfold validateEmail
  simp only []
  split_ifs <;> rfl

theorem validateMessage_frame (d : Dom) :
    validateMessage d =
      ({ d with messageError := (validateMessage d).1.messageError },
        (validateMessage d).2) := by
  unfold validateMessage
  simp only []
  split_ifs <;> rfl

theorem validateName_congr {d e : Dom} (h : e.nameField = d.nameField) :
    (validateName e).1.nameError = (validateName d).1.nameError ∧
      (validateName e).2 = (validateName d).2 := by
  unfold validateName
  simp only [h, showError, clearError]
  split_ifs <;> exact ⟨rfl, rfl⟩

theorem validateEmail_congr {d e : Dom} (h : e.emailField = d.emailField) :
    (validateEmail e).1.emailError = (validateEmail d).1.emailError ∧
      (validateEmail e).2 = (validateEmail d).2 := by
  unfold validateEmail
  simp only [h, showError, clearError]
  split_ifs <;> exact ⟨rfl, rfl⟩

theorem validateMessage_congr {d e : Dom} (h : e.messageField = d.messageField) :
    (validateMessage e).1.messageError = (validateMessage d).1.messageError ∧
      (validateMessage e).2 = (validateMessage d).2 := by
  unfold validateMessage
  simp only [h, showError, clearError]
  split_ifs <;> exact ⟨rfl, rfl⟩

/-- After a validator ran, its slot is cleared when it returned `true` and
shows a non-empty text when it returned `false`. -/
theorem validateName_slot (d : Dom) :
    ((validateName d).2 = true ∧
        (validateName d).1.nameError = { textContent := "", display := "none" }) ∨
      ((validateName d).2 = false ∧ (validateName d).1.nameError.display = "block" ∧
        (validateName d).1.nameError.textContent ≠ "") := by
  unfold validateName
  simp only [showError, clearError]
  split_ifs
  · right; exact ⟨rfl, rfl, by simp⟩
  · right; exact ⟨rfl, rfl, by simp⟩
  · right; exact ⟨rfl, rfl, by simp⟩
  · left; exact ⟨rfl, rfl⟩

theorem validateEmail_slot (d : Dom) :
    ((validateEmail d).2 = true ∧
        (validateEmail d).1.emailError = { textContent := "", display := "none" }) ∨
      ((validateEmail d).2 = false ∧ (validateEmail d).1.emailError.display = "block" ∧
        (validateEmail d).1.emailError.textContent ≠ "") := by
  unfold validateEmail
  simp only [showError, clearError]
  split_ifs
  · right; exact ⟨rfl, rfl, by simp⟩
  · right; exact ⟨rfl, rfl, by simp⟩
  · left; exact ⟨rfl, rfl⟩

theorem validateMessage_slot (d : Dom) :
    ((validateMessage d).2 = true ∧
        (validateMessage d).1.messageError = { textContent := "", display := "none" }) ∨
      ((validateMessage d).2 = false ∧ (validateMessage d).1.messageError.display = "block" ∧
        (validateMessage d).1.messageError.textContent ≠ "") := by
  unfold validateMessage
  simp only [showError, clearError]
  split_ifs
  · right; exact ⟨rfl, rfl, by simp⟩
  · right; exact ⟨rfl, rfl, by simp⟩
  · right; exact ⟨rfl, rfl, by simp⟩
  · left; exact ⟨rfl, rfl⟩

/-- The three validators in a row: each slot is what its own validator
leaves on the document it started from, the rest is untouched, and the result
is the conjunction of the three returned booleans. -/
theorem validateAll_eq (d : Dom) :
    validateAll d =
      ({ d with
          nameError := (validateName d).1.nameError
          emailError := (validateEmail d).1.emailError
          messageError := (validateMessage d).1.messageError },
        (validateName d).2 && (validateEmail d).2 && (validateMessage d).2) := by
  unfold validateAll
  rw [validateName_frame d]
  simp only []
  rw [validateEmail_frame]
  simp only []
  rw [validateMessage_frame]
  simp only []
  have e1 := @validateEmail_congr d
    { d with nameError := (validateName d).1.nameError } rfl
  have e2 := @validateMessage_congr d
    { d with
      nameError := (validateName d).1.nameError
      emailError :=
        (validateEmail { d with nameError := (validateName d).1.nameError }).1.emailError } rfl
  rw [e2.1, e2.2, e1.1, e1.2]

/-- The submit handler, in terms of the validators run on the document it
received. -/
theorem onSubmit_eq (d : Dom) :
    onSubmit d =
      if ((validateName d).2 && (validateEmail d).2 && (validateMessage d).2) = true then
        submitForm
          { d with
            nameError := (validateName d).1.nameError
            emailError := (validateEmail d).1.emailError
            messageError := (validateMessage d).1.messageError
            formMessage := { d.formMessage with display := "none", className := "form-message" } }
      else
        showFormMessage
          { d with
            nameError := (validateName d).1.nameError
            emailError := (validateEmail d).1.emailError
            messageError := (validateMessage d).1.messageError
            formMessage := { d.formMessage with display := "none", className := "form-message" } }
          "Please correct the errors below." "error" := by
  unfold onSubmit
  simp only [validateAll_eq]
  have n := @validateName_congr d (hideFormMessage (clearErrorMessages d)) rfl
  have e := @validateEmail_congr d (hideFormMessage (clearErrorMessages d)) rfl
  have m := @validateMessage_congr d (hideFormMessage (clearErrorMessages d)) rfl
  rw [n.1, n.2, e.1, e.2, m.1, m.2]
  rfl

/-- C6: a submit attempt runs all three validators, whatever the others
return and whatever the slots showed before: afterwards each field's slot is
exactly what that field's own validator writes (visible with a non-empty
error text exactly when the field is invalid, empty and hidden exactly when
it is valid), it depends on no other field and on no prior slot, and the
attempt counts as valid exactly when all three validators succeed. -/
theorem onSubmit_updates_every_slot (d : Dom) :
    ((validateAll (hideFormMessage (clearErrorMessages d))).2 = true ↔
      ((validateName d).2 = true ∧ (validateEmail d).2 = true ∧
        (validateMessage d).2 = true)) ∧
    ((onSubmit d).nameError = (validateName d).1.nameError ∧
      ((validateName d).2 = false ↔
        ((onSubmit d).nameError.display = "block" ∧
          (onSubmit d).nameError.textContent ≠ "")) ∧
      ((validateName d).2 = true ↔
        (onSubmit d).nameError = { textContent := "", display := "none" })) ∧
    ((onSubmit d).emailError = (validateEmail d).1.emailError ∧
      ((validateEmail d).2 = false ↔
        ((onSubmit d).emailError.display = "block" ∧
          (onSubmit d).emailError.textContent ≠ "")) ∧
      ((validateEmail d).2 = true ↔
        (onSubmit d).emailError = { textContent := "", display := "none" })) ∧
    ((onSubmit d).messageError = (validateMessage d).1.messageError ∧
      ((validateMessage d).2 = false ↔
        ((onSubmit d).messageError.display = "block" ∧
          (onSubmit d).messageError.textContent ≠ "")) ∧
      ((validateMessage d).2 = true ↔
        (onSubmit d).messageError = { textContent := "", display := "none" })) ∧
    (∀ e : Dom, e.nameField = d.nameField → (onSubmit e).nameError = (onSubmit d).nameError) ∧
    (∀ e : Dom, e.emailField = d.emailField →
      (onSubmit e).emailError = (onSubmit d).emailError) ∧
    (∀ e : Dom, e.messageField = d.messageField →
      (onSubmit e).messageError = (onSubmit d).messageError) := by
  have slots : ∀ x : Dom, (onSubmit x).nameError = (validateName x).1.nameError ∧
      (onSubmit x).emailError = (validateEmail x).1.emailError ∧
      (onSubmit x).messageError = (validateMessage x).1.messageError := by
    intro x
    rw [onSubmit_eq]
    split_ifs <;> exact ⟨rfl, rfl, rfl⟩
  have hblock : ¬ (({ textContent := "", display := "none" } : ErrorSlot).display = "block") := by
    decide
  obtain ⟨sn, se, sm⟩ := slots d
  refine ⟨?_, ⟨sn, ?_, ?_⟩, ⟨se, ?_, ?_⟩, ⟨sm, ?_, ?_⟩, ?_, ?_, ?_⟩
  · rw [validateAll_eq]
    have n := @validateName_congr d (hideFormMessage (clearErrorMessages d)) rfl
    have e := @validateEmail_congr d (hideFormMessage (clearErrorMessages d)) rfl
    have m := @validateMessage_congr d (hideFormMessage (clearErrorMessages d)) rfl
    simp only [n.2, e.2, m.2, Bool.and_eq_true, and_assoc]
  · rw [sn]
    rcases validateName_slot d with ⟨h1, h2⟩ | ⟨h1, h2, h3⟩
    · rw [h1, h2]; simp
    · rw [h1]; simp [h2, h3]
  · rw [sn]
    rcases validateName_slot d with ⟨h1, h2⟩ | ⟨h1, h2, h3⟩
    · rw [h1, h2]; simp
    · rw [h1]
      constructor
      · intro h; cases h
      · intro h; rw [h] at h2; exact absurd h2 hblock
  · rw [se]
    rcases validateEmail_slot d with ⟨h1, h2⟩ | ⟨h1, h2, h3⟩
    · rw [h1, h2]; simp
    · rw [h1]; simp [h2, h3]
  · rw [se]
    rcases validateEmail_slot d with ⟨h1, h2⟩ | ⟨h1, h2, h3⟩
    · rw [h1, h2]; simp
    · rw [h1]
      constructor
      · intro h; cases h
      · intro h; rw [h] at h2; exact absurd h2 hblock
  · rw [sm]
    rcases validateMessage_slot d with ⟨h1, h2⟩ | ⟨h1, h2, h3⟩
    · rw [h1, h2]; simp
    · rw [h1]; simp [h2, h3]
  · rw [sm]
    rcases validateMessage_slot d with ⟨h1, h2⟩ | ⟨h1, h2, h3⟩
    · rw [h1, h2]; simp
    · rw [h1]
      constructor
      · intro h; cases h
      · intro h; rw [h] at h2; exact absurd h2 hblock
  · intro e he
    rw [sn, (slots e).1, (validateName_congr he).1]
  · intro e he
    rw [se, (slots e).2.1, (validateEmail_congr he).1]
  · intro e he
    rw [sm, (slots e).2.2, (validateMessage_congr he).1]

/-- Witness for C6: the spec's triple counts as valid; with the message
replaced by "Hello" (and stale errors showing in all three slots) the attempt
is not valid, the message slot shows its error and the other two slots are
cleared; likewise with only the name or only the email made invalid. -/
theorem onSubmit_updates_every_slot_witness :
    (validateAll (hideFormMessage (clearErrorMessages filledForm))).2 = true ∧
    ((validateAll (hideFormMessage (clearErrorMessages
        { filledForm with
          messageField := utf16 "Hello"
          nameError := { textContent := "Name is required.", display := "block" }
          emailError := { textContent := "Email is required.", display := "block" }
          messageError := { textContent := "Message is required.", display := "block" } }))).2
        = false ∧
      (onSubmit
        { filledForm with
          messageField := utf16 "Hello"
          nameError := { textContent := "Name is required.", display := "block" }
          emailError := { textContent := "Email is required.", display := "block" }
          messageError := { textContent := "Message is required.", display := "block" } }).nameError
        = { textContent := "", display := "none" } ∧
      (onSubmit
        { filledForm with
          messageField := utf16 "Hello"
          nameError := { textContent := "Name is required.", display := "block" }
          emailError := { textContent := "Email is required.", display := "block" }
          messageError := { textContent := "Message is required.", display := "block" } }).emailError
        = { textContent := "", display := "none" } ∧
      (onSubmit
        { filledForm with
          messageField := utf16 "Hello"
          nameError := { textContent := "Name is required.", display := "block" }
          emailError := { textContent := "Email is required.", display := "block" }
          messageError := { textContent := "Message is required.", display := "block" } }).messageError
        = { textContent := "Message must be at least 10 characters long.",
            display := "block" }) ∧
    ((validateAll (hideFormMessage (clearErrorMessages
        { filledForm with nameField := utf16 "J" }))).2 = false ∧
      (onSubmit { filledForm with nameField := utf16 "J" }).emailError
        = { textContent := "", display := "none" } ∧
      (onSubmit { filledForm with nameField := utf16 "J" }).messageError
        = { textContent := "", display := "none" }) ∧
    ((validateAll (hideFormMessage (clearErrorMessages
        { filledForm with emailField := utf16 "jane" }))).2 = false ∧
      (onSubmit { filledForm with emailField := utf16 "jane" }).nameError
        = { textContent := "", display := "none" } ∧
      (onSubmit { filledForm with emailField := utf16 "jane" }).messageError
        = { textContent := "", display := "none" }) := by
  refine ⟨(onSubmit_updates_every_slot filledForm).1.mpr ⟨by decide, by decide, by decide⟩,
    ⟨by decide, ?_, ?_, by decide⟩, ⟨by decide, ?_, ?_⟩, ⟨by decide, ?_, ?_⟩⟩
  · exact (onSubmit_updates_every_slot _).2.1.2.2.mp (by decide)
  · exact (onSubmit_updates_every_slot _).2.2.1.2.2.mp (by decide)
  · exact (onSubmit_updates_every_slot _).2.2.1.2.2.mp (by decide)
  · exact (onSubmit_updates_every_slot _).2.2.2.1.2.2.mp (by decide)
  · exact (onSubmit_updates_every_slot _).2.1.2.2.mp (by decide)
  · exact (onSubmit_updates_every_slot _).2.2.2.1.2.2.mp (by decide)

/-- C7: when at least one of the three fields is invalid, a submit attempt
shows the whole-form message "Please correct the errors below." of kind
error and, the three inline slots apart, changes nothing else: the submit
control, the three input values, the pending timers and the clock are as
before. -/
theorem onSubmit_invalid_shows_form_error (d : Dom)
    (h : (validateName d).2 = false ∨ (validateEmail d).2 = false ∨
      (validateMessage d).2 = false) :
    (onSubmit d).formMessage =
      { textContent := "Please correct the errors below."
        className := "form-message error"
        display := "block" } ∧
    (onSubmit d).submitButton = d.submitButton ∧
    (onSubmit d).nameField = d.nameField ∧
    (onSubmit d).emailField = d.emailField ∧
    (onSubmit d).messageField = d.messageField ∧
    (onSubmit d).timers = d.timers ∧
    (onSubmit d).now = d.now ∧
    onSubmit d =
      { d with
        nameError := (validateName d).1.nameError
        emailError := (validateEmail d).1.emailError
        messageError := (validateMessage d).1.messageError
        formMessage :=
          { textContent := "Please correct the errors below."
            className := "form-message error"
            display := "block" } } := by
  have hall : ((validateName d).2 && (validateEmail d).2 && (validateMessage d).2) = false := by
    rcases h with h | h | h <;> simp [h]
  rw [onSubmit_eq, hall]
  simp [showFormMessage, className_error]

/-- Witness for C7: a message of trimmed length 5, with the rest of the form
valid. -/
theorem onSubmit_invalid_shows_form_error_witness :
    (trim (utf16 " Hello ")).length = 5 ∧
    (onSubmit { filledForm with messageField := utf16 " Hello " }).formMessage =
      { textContent := "Please correct the errors below."
        className := "form-message error"
        display := "block" } ∧
    (onSubmit { filledForm with messageField := utf16 " Hello " }).submitButton =
      { disabled := false, innerHTML := "Send Message" } ∧
    (onSubmit { filledForm with messageField := utf16 " Hello " }).messageField =
      utf16 " Hello " ∧
    (onSubmit { filledForm with messageField := utf16 " Hello " }).timers = [] := by
  have h := onSubmit_invalid_shows_form_error
    { filledForm with messageField := utf16 " Hello " } (Or.inr (Or.inr (by decide)))
  exact ⟨by decide, h.1, h.2.1, h.2.2.2.2.1, h.2.2.2.2.2.1⟩

/-! ## The simulated submission -/

/-- C8: from a document with three valid fields and no pending timer, one
submit attempt and its two timer firings pass through these states.  Right
after the submit the control is disabled with the label "Sending...", the
whole-form message is hidden and the 1500-unit timer is the only one pending.
When it fires, the three inputs are cleared, the success message is visible,
the control is enabled with the label it had before the submit, and the
5000-unit timer is the only one pending.  When that fires, the message is
hidden and no timer is left.  In none of the three states is a whole-form
message of kind error visible. -/
theorem submit_then_two_timers (d : Dom)
    (hname : (validateName d).2 = true) (hemail : (validateEmail d).2 = true)
    (hmessage : (validateMessage d).2 = true) (hidle : d.timers = []) :
    ((onSubmit d).submitButton = { disabled := true, innerHTML := "Sending..." } ∧
      (onSubmit d).formMessage.display = "none" ∧
      (onSubmit d).timers =
        [{ due := d.now + 1500, callback := Callback.submitDone d.submitButton.innerHTML }]) ∧
    ((fire (onSubmit d)).nameField = [] ∧
      (fire (onSubmit d)).emailField = [] ∧
      (fire (onSubmit d)).messageField = [] ∧
      (fire (onSubmit d)).formMessage =
        { textContent := "Thank you for your message! I'll get back to you as soon as possible."
          className := "form-message success"
          display := "block" } ∧
      (fire (onSubmit d)).submitButton =
        { disabled := false, innerHTML := d.submitButton.innerHTML } ∧
      (fire (onSubmit d)).now = d.now + 1500 ∧
      (fire (onSubmit d)).timers =
        [{ due := d.now + 1500 + 5000, callback := Callback.hideMessage }]) ∧
    ((fire (fire (onSubmit d))).formMessage.display = "none" ∧
      (fire (fire (onSubmit d))).submitButton =
        { disabled := false, innerHTML := d.submitButton.innerHTML } ∧
      (fire (fire (onSubmit d))).now = d.now + 1500 + 5000 ∧
      (fire (fire (onSubmit d))).timers = []) ∧
    (∀ x ∈ [onSubmit d, fire (onSubmit d), fire (fire (onSubmit d))],
      ¬ (x.formMessage.display = "block" ∧ x.formMessage.className = "form-message error")) := by
  have hall : ((validateName d).2 && (validateEmail d).2 && (validateMessage d).2) = true := by
    simp [hname, hemail, hmessage]
  have h1 : onSubmit d =
      { d with
        nameError := (validateName d).1.nameError
        emailError := (validateEmail d).1.emailError
        messageError := (validateMessage d).1.messageError
        formMessage := { d.formMessage with display := "none", className := "form-message" }
        submitButton := { disabled := true, innerHTML := "Sending..." }
        timers :=
          [{ due := d.now + 1500, callback := Callback.submitDone d.submitButton.innerHTML }] } := by
    rw [onSubmit_eq, hall]
    simp [submitForm, setTimeout, hidle]
  have h2 : fire (onSubmit d) =
      { d with
        nameField := []
        emailField := []
        messageField := []
        nameError := (validateName d).1.nameError
        emailError := (validateEmail d).1.emailError
        messageError := (validateMessage d).1.messageError
        formMessage :=
          { textContent := "Thank you for your message! I'll get back to you as soon as possible."
            className := "form-message success"
            display := "block" }
        submitButton := { disabled := false, innerHTML := d.submitButton.innerHTML }
        now := d.now + 1500
        timers := [{ due := d.now + 1500 + 5000, callback := Callback.hideMessage }] } := by
    rw [h1]
    simp [fire, pickNext, runCallback, reset, defaultValue, showFormMessage, setTimeout,
      className_success]
  have h3 : fire (fire (onSubmit d)) =
      { d with
        nameField := []
        emailField := []
        messageField := []
        nameError := (validateName d).1.nameError
        emailError := (validateEmail d).1.emailError
        messageError := (validateMessage d).1.messageError
        formMessage :=
          { textContent := "Thank you for your message! I'll get back to you as soon as possible."
            className := "form-message"
            display := "none" }
        submitButton := { disabled := false, innerHTML := d.submitButton.innerHTML }
        now := d.now + 1500 + 5000
        timers := [] } := by
    rw [h2]
    simp [fire, pickNext, runCallback, hideFormMessage]
  refine ⟨?_, ?_, ?_, ?_⟩
  · rw [h1]; exact ⟨rfl, rfl, rfl⟩
  · rw [h2]; exact ⟨rfl, rfl, rfl, rfl, rfl, rfl, rfl⟩
  · rw [h3]; exact ⟨rfl, rfl, rfl, rfl⟩
  · intro x hx
    simp only [List.mem_cons, List.mem_singleton, List.not_mem_nil, or_false] at hx
    rcases hx with hx | hx | hx
    · rw [hx, h1]; simp
    · rw [hx, h2]; simp
    · rw [hx, h3]; simp

/-- Witness for C8: the spec's valid triple, submitted while an earlier error
message is still showing. -/
theorem submit_then_two_timers_witness :
    (onSubmit
      { filledForm with
        formMessage :=
          { textContent := "Please correct the errors below."
            className := "form-message error"
            display := "block" } }).formMessage.display = "none" ∧
    (fire (onSubmit
      { filledForm with
        formMessage :=
          { textContent := "Please correct the errors below."
            className := "form-message error"
            display := "block" } })).submitButton =
      { disabled := false, innerHTML := "Send Message" } ∧
    (fire (fire (onSubmit
      { filledForm with
        formMessage :=
          { textContent := "Please correct the errors below."
            className := "form-message error"
            display := "block" } }))).timers = [] := by
  have h := submit_then_two_timers
    { filledForm with
      formMessage :=
        { textContent := "Please correct the errors below."
          className := "form-message error"
          display := "block" } }
    (by decide) (by decide) (by decide) rfl
  exact ⟨h.1.2.1, h.2.1.2.2.2.2.1, h.2.2.1.2.2.2⟩

/-! ## Timers -/

theorem pickNext_none {ts : List Timer} (h : pickNext ts = none) : ts = [] := by
  cases ts with
  | nil => rfl
  | cons t rest =>
    unfold pickNext at h
    split at h
    · cases h
    · split_ifs at h

theorem pickNext_some {ts : List Timer} {t : Timer} {others : List Timer}
    (h : pickNext ts = some (t, others)) :
    ts.length = others.length + 1 ∧
      ∀ p : Timer → Bool, ts.countP p = others.countP p + (if p t = true then 1 else 0) := by
  induction ts generalizing t others with
  | nil => simp [pickNext] at h
  | cons a rest ih =>
    unfold pickNext at h
    split at h
    · rename_i hnone
      have hrest := pickNext_none hnone
      simp only [Option.some.injEq, Prod.mk.injEq] at h
      obtain ⟨rfl, rfl⟩ := h
      subst hrest
      refine ⟨rfl, fun p => ?_⟩
      by_cases hp : p a = true <;> simp [List.countP_cons, hp]
    · rename_i u others2 hsome
      obtain ⟨hlen, hcount⟩ := ih hsome
      split_ifs at h
      · simp only [Option.some.injEq, Prod.mk.injEq] at h
        obtain ⟨rfl, rfl⟩ := h
        refine ⟨rfl, fun p => ?_⟩
        by_cases hp : p a = true <;> simp [List.countP_cons, hp]
      · simp only [Option.some.injEq, Prod.mk.injEq] at h
        obtain ⟨rfl, rfl⟩ := h
        refine ⟨by simp [hlen], fun p => ?_⟩
        rw [List.countP_cons, List.countP_cons, hcount p]
        omega

theorem onSubmit_timers (d : Dom) :
    (onSubmit d).timers =
      if ((validateName d).2 && (validateEmail d).2 && (validateMessage d).2) = true then
        d.timers ++
          [{ due := d.now + 1500, callback := Callback.submitDone d.submitButton.innerHTML }]
      else d.timers := by
  rw [onSubmit_eq]
  split_ifs <;> rfl

theorem validate_timers (d : Dom) :
    (validateName d).1.timers = d.timers ∧ (validateEmail d).1.timers = d.timers ∧
      (validateMessage d).1.timers = d.timers := by
  refine ⟨?_, ?_, ?_⟩
  · rw [validateName_frame]
  · rw [validateEmail_frame]
  · rw [validateMessage_frame]

theorem advance_timers (d : Dom) (dt : Nat) : (advance d dt).timers = d.timers := by
  unfold advance
  split <;> rfl

theorem fire_timers (d : Dom) :
    (pickNext d.timers = none ∧ fire d = d) ∨
      ∃ t others, pickNext d.timers = some (t, others) ∧
        ((t.isSubmission = true ∧ t.isDismiss = false ∧
            (fire d).timers =
              others ++ [{ due := max d.now t.due + 5000, callback := Callback.hideMessage }]) ∨
          (t.isSubmission = false ∧ t.isDismiss = true ∧ (fire d).timers = others)) := by
  unfold fire
  cases h : pickNext d.timers with
  | none => left; exact ⟨rfl, rfl⟩
  | some p =>
    obtain ⟨t, others⟩ := p
    right
    refine ⟨t, others, rfl, ?_⟩
    obtain ⟨due, cb⟩ := t
    cases cb with
    | submitDone originalText => left; exact ⟨rfl, rfl, rfl⟩
    | hideMessage => right; exact ⟨rfl, rfl, rfl⟩

theorem step_keeps_single_timer (d : Dom) (e : Event) (hlen : d.timers.length ≤ 1)
    (hidle : (e != Event.submit || d.timers.isEmpty || !(validateAll d).2) = true) :
    (step d e).timers.length ≤ 1 := by
  cases e with
  | inputName value => exact hlen
  | inputEmail value => exact hlen
  | inputMessage value => exact hlen
  | blurName => show (validateName d).1.timers.length ≤ 1; rw [(validate_timers d).1]; exact hlen
  | blurEmail =>
    show (validateEmail d).1.timers.length ≤ 1; rw [(validate_timers d).2.1]; exact hlen
  | blurMessage =>
    show (validateMessage d).1.timers.length ≤ 1; rw [(validate_timers d).2.2]; exact hlen
  | advance dt => show (advance d dt).timers.length ≤ 1; rw [advance_timers]; exact hlen
  | submit =>
    show (onSubmit d).timers.length ≤ 1
    rw [onSubmit_timers]
    rw [validateAll_eq] at hidle
    split_ifs with hv
    · rw [hv] at hidle
      have hnil : d.timers = [] := by simpa using hidle
      simp [hnil]
    · exact hlen
  | fire =>
    show (fire d).timers.length ≤ 1
    rcases fire_timers d with ⟨-, h⟩ | ⟨t, others, hp, ⟨-, -, h⟩ | ⟨-, -, h⟩⟩
    · rw [h]; exact hlen
    · have := (pickNext_some hp).1
      rw [h]
      simp only [List.length_append, List.length_singleton]
      omega
    · have := (pickNext_some hp).1
      rw [h]
      omega

theorem run_keeps_single_timer (es : List Event) :
    ∀ d : Dom, d.timers.length ≤ 1 → submitsWhenIdle d es = true →
      (run d es).timers.length ≤ 1 := by
  induction es with
  | nil => intro d hlen _; exact hlen
  | cons e es ih =>
    intro d hlen hidle
    unfold submitsWhenIdle at hidle
    rw [Bool.and_eq_true] at hidle
    exact ih (step d e) (step_keeps_single_timer d e hlen hidle.1) hidle.2

theorem not_bothPending_of_single (d : Dom) (hlen : d.timers.length ≤ 1) :
    bothPending d = false := by
  unfold bothPending
  match h : d.timers with
  | [] => simp
  | [t] =>
    obtain ⟨due, cb⟩ := t
    cases cb <;> simp [Timer.isSubmission, Timer.isDismiss]
  | a :: b :: rest => rw [h] at hlen; simp at hlen

/-- C10, as stated, fails: the spec's triple is submitted, its submission
timer fires at 1500, the user fills the form again and submits at 3000.
The first submission's auto-dismiss timer (due 6500) and the second
submission's delay timer (due 4500) are then pending together. -/
theorem resubmit_before_dismiss_counterexample :
    (run filledForm
      [Event.submit, Event.fire, Event.advance 1500,
        Event.inputName (utf16 "Jane Doe"), Event.inputEmail (utf16 "jane@example.com"),
        Event.inputMessage (utf16 "Hello, this is a test message."), Event.submit]).timers =
      [{ due := 6500, callback := Callback.hideMessage },
       { due := 4500, callback := Callback.submitDone "Send Message" }] ∧
    bothPending (run filledForm
      [Event.submit, Event.fire, Event.advance 1500,
        Event.inputName (utf16 "Jane Doe"), Event.inputEmail (utf16 "jane@example.com"),
        Event.inputMessage (utf16 "Hello, this is a test message."), Event.submit]) = true := by
  refine ⟨by decide, by decide⟩

/-- C10, amended: an auto-dismiss timer is scheduled only inside the callback
of a submission timer, at the time that timer fires, so the two timers of one
submission are strictly sequential; and in every state reached from a
document with no pending timer by events among which every submit attempt
with three valid fields is made while no timer is pending, a submission-delay
timer and an auto-dismiss timer are never pending at the same time. -/
theorem dismiss_timer_follows_submission (d : Dom) :
    (∀ e : Event, dismissPending d < dismissPending (step d e) →
      e = Event.fire ∧
        ∃ t others, pickNext d.timers = some (t, others) ∧ t.isSubmission = true ∧
          (step d e).timers =
            others ++ [{ due := max d.now t.due + 5000, callback := Callback.hideMessage }]) ∧
    (∀ es : List Event, d.timers = [] → submitsWhenIdle d es = true →
      bothPending (run d es) = false) := by
  constructor
  · intro e hlt
    unfold dismissPending at hlt
    cases e with
    | inputName value => exact absurd hlt (Nat.lt_irrefl _)
    | inputEmail value => exact absurd hlt (Nat.lt_irrefl _)
    | inputMessage value => exact absurd hlt (Nat.lt_irrefl _)
    | blurName =>
      change _ < (validateName d).1.timers.countP _ at hlt
      rw [(validate_timers d).1] at hlt
      exact absurd hlt (Nat.lt_irrefl _)
    | blurEmail =>
      change _ < (validateEmail d).1.timers.countP _ at hlt
      rw [(validate_timers d).2.1] at hlt
      exact absurd hlt (Nat.lt_irrefl _)
    | blurMessage =>
      change _ < (validateMessage d).1.timers.countP _ at hlt
      rw [(validate_timers d).2.2] at hlt
      exact absurd hlt (Nat.lt_irrefl _)
    | advance dt =>
      change _ < (advance d dt).timers.countP _ at hlt
      rw [advance_timers] at hlt
      exact absurd hlt (Nat.lt_irrefl _)
    | submit =>
      change _ < (onSubmit d).timers.countP _ at hlt
      rw [onSubmit_timers] at hlt
      split_ifs at hlt
      · simp [List.countP_append, Timer.isDismiss] at hlt
      · exact absurd hlt (Nat.lt_irrefl _)
    | fire =>
      refine ⟨rfl, ?_⟩
      change _ < (fire d).timers.countP _ at hlt
      rcases fire_timers d with ⟨-, h⟩ | ⟨t, others, hp, ⟨hs, -, h⟩ | ⟨-, hd, h⟩⟩
      · rw [h] at hlt
        exact absurd hlt (Nat.lt_irrefl _)
      · exact ⟨t, others, hp, hs, h⟩
      · have hc := (pickNext_some hp).2 Timer.isDismiss
        rw [h, hc] at hlt
        omega
  · intro es hnil hidle
    apply not_bothPending_of_single
    apply run_keeps_single_timer es d _ hidle
    rw [hnil]
    exact Nat.zero_le _

/-- Witness for C10 amended: firing the submission timer of the spec's triple
is what schedules the auto-dismiss timer, due 5000 after the firing; and in a
run with a second submission made after the first one's message was
dismissed, the two kinds of timer are never pending together. -/
theorem dismiss_timer_follows_submission_witness :
    (onSubmit filledForm).timers =
      [{ due := 1500, callback := Callback.submitDone "Send Message" }] ∧
    (∃ t others, pickNext (onSubmit filledForm).timers = some (t, others) ∧
      t.isSubmission = true ∧
      (step (onSubmit filledForm) Event.fire).timers =
        others ++ [{ due := max (onSubmit filledForm).now t.due + 5000,
                     callback := Callback.hideMessage }]) ∧
    bothPending (run filledForm
      [Event.submit, Event.advance 700, Event.fire, Event.blurName, Event.fire,
        Event.inputName (utf16 "Jane Doe"), Event.inputEmail (utf16 "jane@example.com"),
        Event.inputMessage (utf16 "Hello, this is a test message."), Event.submit,
        Event.fire]) = false := by
  refine ⟨by decide, ?_, ?_⟩
  · exact ((dismiss_timer_follows_submission (onSubmit filledForm)).1 Event.fire
      (by decide)).2
  · exact (dismiss_timer_follows_submission filledForm).2 _ rfl (by decide)

/-! ## The label of the submit control -/

theorem pickNext_mem {ts : List Timer} {t : Timer} {others : List Timer}
    (h : pickNext ts = some (t, others)) : ∀ x, x ∈ ts ↔ x = t ∨ x ∈ others := by
  induction ts generalizing t others with
  | nil => simp [pickNext] at h
  | cons a rest ih =>
    unfold pickNext at h
    split at h
    · rename_i hnone
      have hrest := pickNext_none hnone
      simp only [Option.some.injEq, Prod.mk.injEq] at h
      obtain ⟨rfl, rfl⟩ := h
      subst hrest
      intro x
      simp
    · rename_i u others2 hsome
      have hmem := ih hsome
      split_ifs at h
      · simp only [Option.some.injEq, Prod.mk.injEq] at h
        obtain ⟨rfl, rfl⟩ := h
        intro x
        simp
      · simp only [Option.some.injEq, Prod.mk.injEq] at h
        obtain ⟨rfl, rfl⟩ := h
        intro x
        rw [List.mem_cons, hmem x, List.mem_cons]
        constructor
        · rintro (h1 | h1 | h1)
          · exact Or.inr (Or.inl h1)
          · exact Or.inl h1
          · exact Or.inr (Or.inr h1)
        · rintro (h1 | h1 | h1)
          · exact Or.inr (Or.inl h1)
          · exact Or.inl h1
          · exact Or.inr (Or.inr h1)

theorem validate_submitButton (d : Dom) :
    (validateName d).1.submitButton = d.submitButton ∧
      (validateEmail d).1.submitButton = d.submitButton ∧
      (validateMessage d).1.submitButton = d.submitButton := by
  refine ⟨?_, ?_, ?_⟩
  · rw [validateName_frame]
  · rw [validateEmail_frame]
  · rw [validateMessage_frame]

theorem advance_submitButton (d : Dom) (dt : Nat) :
    (advance d dt).submitButton = d.submitButton := by
  unfold advance
  split <;> rfl

theorem onSubmit_submitButton (d : Dom) :
    (onSubmit d).submitButton =
      if ((validateName d).2 && (validateEmail d).2 && (validateMessage d).2) = true then
        { disabled := true, innerHTML := "Sending..." }
      else d.submitButton := by
  rw [onSubmit_eq]
  split_ifs <;> rfl

/-- What firing the next timer does to the control. -/
theorem fire_submitButton (d : Dom) {t : Timer} {others : List Timer}
    (hp : pickNext d.timers = some (t, others)) :
    (∀ original, t.callback = Callback.submitDone original →
      (fire d).submitButton = { disabled := false, innerHTML := original }) ∧
    (t.callback = Callback.hideMessage → (fire d).submitButton = d.submitButton) := by
  unfold fire
  rw [hp]
  obtain ⟨due, cb⟩ := t
  constructor
  · intro original hcb
    simp only at hcb
    subst hcb
    rfl
  · intro hcb
    simp only at hcb
    subst hcb
    rfl

theorem labelKept_of_same {original : String} {d e : Dom} (h : LabelKept original d)
    (ht : e.timers = d.timers) (hb : e.submitButton = d.submitButton) :
    LabelKept original e := by
  unfold LabelKept at h ⊢
  rw [ht, hb]
  exact h

theorem pageStep_labelKept (original : String) (d : Dom) (e : Event)
    (h : LabelKept original d) : LabelKept original (pageStep d e) := by
  cases e with
  | inputName value => exact labelKept_of_same h rfl rfl
  | inputEmail value => exact labelKept_of_same h rfl rfl
  | inputMessage value => exact labelKept_of_same h rfl rfl
  | blurName => exact labelKept_of_same h (validate_timers d).1 (validate_submitButton d).1
  | blurEmail => exact labelKept_of_same h (validate_timers d).2.1 (validate_submitButton d).2.1
  | blurMessage =>
    exact labelKept_of_same h (validate_timers d).2.2 (validate_submitButton d).2.2
  | advance dt => exact labelKept_of_same h (advance_timers d dt) (advance_submitButton d dt)
  | submit =>
    show LabelKept original (if d.submitButton.disabled = true then d else onSubmit d)
    split_ifs with hdis
    · exact h
    · obtain ⟨hcap, ⟨hcount, hbutton⟩ | ⟨-, hd⟩⟩ := h
      · by_cases hv :
            ((validateName d).2 && (validateEmail d).2 && (validateMessage d).2) = true
        · refine ⟨?_, Or.inr ⟨?_, ?_⟩⟩
          · intro t ht hs
            rw [onSubmit_timers, if_pos hv, List.mem_append, List.mem_singleton] at ht
            rcases ht with ht | ht
            · exact hcap t ht hs
            · rw [ht, hbutton]
          · rw [onSubmit_timers, if_pos hv, List.countP_append, hcount]
            rfl
          · rw [onSubmit_submitButton, if_pos hv]
        · refine labelKept_of_same ⟨hcap, Or.inl ⟨hcount, hbutton⟩⟩ ?_ ?_
          · rw [onSubmit_timers, if_neg hv]
          · rw [onSubmit_submitButton, if_neg hv]
      · exact absurd hd hdis
  | fire =>
    show LabelKept original (fire d)
    rcases fire_timers d with ⟨-, hsame⟩ | ⟨t, others, hp, ⟨hs, hnd, ht⟩ | ⟨hns, hd, ht⟩⟩
    · rw [hsame]; exact h
    · obtain ⟨hcap, hstate⟩ := h
      have hmem := pickNext_mem hp
      have hcount := (pickNext_some hp).2 Timer.isSubmission
      rw [if_pos hs] at hcount
      have hcb := hcap t ((hmem t).mpr (Or.inl rfl)) hs
      have hothers : others.countP Timer.isSubmission = 0 := by
        rcases hstate with ⟨h0, -⟩ | ⟨h1, -⟩ <;> omega
      refine ⟨?_, Or.inl ⟨?_, (fire_submitButton d hp).1 original hcb⟩⟩
      · intro x hx hxs
        rw [ht, List.mem_append, List.mem_singleton] at hx
        rcases hx with hx | hx
        · exact hcap x ((hmem x).mpr (Or.inr hx)) hxs
        · rw [hx] at hxs; cases hxs
      · rw [ht, List.countP_append, hothers]
        rfl
    · obtain ⟨hcap, hstate⟩ := h
      have hmem := pickNext_mem hp
      have hcount := (pickNext_some hp).2 Timer.isSubmission
      rw [if_neg (by rw [hns]; exact Bool.false_ne_true)] at hcount
      have hcb : t.callback = Callback.hideMessage := by
        obtain ⟨due, cb⟩ := t
        cases cb with
        | submitDone o => cases hd
        | hideMessage => rfl
      have hbutton := (fire_submitButton d hp).2 hcb
      refine ⟨?_, ?_⟩
      · intro x hx hxs
        rw [ht] at hx
        exact hcap x ((hmem x).mpr (Or.inr hx)) hxs
      · rw [ht, hbutton]
        rw [hcount] at hstate
        exact hstate

theorem pageRun_labelKept (original : String) (es : List Event) :
    ∀ d : Dom, LabelKept original d → LabelKept original (pageRun d es) := by
  induction es with
  | nil => intro d h; exact h
  | cons e es ih =>
    intro d h
    exact ih (pageStep d e) (pageStep_labelKept original d e h)

/-- C9: on the page, starting with no timer pending and the control enabled,
after every sequence of events (edits, blurs, submit attempts at any moment,
also while a submission timer is pending, time passing, timer firings) every
pending submission timer has captured the label the control had before any
submission started; so each time a submission timer's callback runs it
enables the control with that original label, and whenever no submission
timer is pending the control is enabled and shows the original label, not
the pending indicator. -/
theorem callback_restores_original_label (d : Dom) (hidle : d.timers = [])
    (henabled : d.submitButton.disabled = false) (es : List Event) :
    (∀ t ∈ (pageRun d es).timers, t.isSubmission = true →
      t.callback = Callback.submitDone d.submitButton.innerHTML) ∧
    (∀ t others, pickNext (pageRun d es).timers = some (t, others) →
      t.isSubmission = true →
      (pageStep (pageRun d es) Event.fire).submitButton =
        { disabled := false, innerHTML := d.submitButton.innerHTML }) ∧
    ((pageRun d es).timers.any Timer.isSubmission = false →
      (pageRun d es).submitButton =
        { disabled := false, innerHTML := d.submitButton.innerHTML }) := by
  have h0 : LabelKept d.submitButton.innerHTML d := by
    refine ⟨?_, Or.inl ⟨?_, ?_⟩⟩
    · intro t ht
      rw [hidle] at ht
      cases ht
    · rw [hidle]; rfl
    · rw [← henabled]
  obtain ⟨hcap, hstate⟩ := pageRun_labelKept d.submitButton.innerHTML es d h0
  refine ⟨hcap, ?_, ?_⟩
  · intro t others hp hs
    have hcb := hcap t ((pickNext_mem hp t).mpr (Or.inl rfl)) hs
    exact (fire_submitButton (pageRun d es) hp).1 _ hcb
  · intro hnone
    rcases hstate with ⟨-, hbutton⟩ | ⟨hone, -⟩
    · exact hbutton
    · have hpos : 0 < (pageRun d es).timers.countP Timer.isSubmission := by omega
      obtain ⟨t, ht, hs⟩ := List.countP_pos_iff.mp hpos
      have : (pageRun d es).timers.any Timer.isSubmission = true :=
        List.any_eq_true.mpr ⟨t, ht, hs⟩
      rw [hnone] at this
      cases this

/-- Witness for C9: the spec's triple is submitted and a second submit
attempt is made 500 time units later, while the control is disabled and the
first submission's timer is pending.  The attempt schedules nothing, the one
callback (due 1500) restores "Send Message", and once the dismiss timer has
fired too the control is enabled with that label. -/
theorem callback_restores_original_label_witness :
    (pageRun filledForm [Event.submit, Event.advance 500, Event.submit]).timers =
      [{ due := 1500, callback := Callback.submitDone "Send Message" }] ∧
    (pageRun filledForm [Event.submit, Event.advance 500, Event.submit]).submitButton =
      { disabled := true, innerHTML := "Sending..." } ∧
    (pageStep (pageRun filledForm [Event.submit, Event.advance 500, Event.submit])
      Event.fire).submitButton = { disabled := false, innerHTML := "Send Message" } ∧
    (pageRun filledForm
      [Event.submit, Event.advance 500, Event.submit, Event.fire, Event.fire]).submitButton =
      { disabled := false, innerHTML := "Send Message" } := by
  refine ⟨by decide, by decide, ?_, ?_⟩
  · exact (callback_restores_original_label filledForm rfl rfl
      [Event.submit, Event.advance 500, Event.submit]).2.1
      { due := 1500, callback := Callback.submitDone "Send Message" } [] (by decide) rfl
  · exact (callback_restores_original_label filledForm rfl rfl
      [Event.submit, Event.advance 500, Event.submit, Event.fire, Event.fire]).2.2 (by decide)

end Portfolio
